import Mathlib

/-!
Verification of the rolling, point-in-time cross-sectional scoring engine of
the `fundamental_analysis` repository.

The development shallowly embeds the scoring module:
  * `scoring/z_score.py` (`_calculate_rolling_z_scores`),
  * `scoring/percentile_score.py` (`_calculate_rolling_percentiles`),
  * `scoring/mad_score.py` (`_calculate_mad_scores`),
  * `scoring/melt.py` and `scoring/outliers.py` (`melt_and_classify_metrics`),
  * `scoring/explain_scores.py` (`get_outlier_details`),
  * `scoring/deepdive/count_based_selection.py` (`calculate_signal_counts`).

Modelling conventions:
  * A polars dataframe restricted to the columns the engine touches for one
    metric is a `List Row`; the per-metric loops in the source apply the same
    independent computation to each metric, so all statements are per metric.
  * Calendar dates are embedded as `ℤ` (days); `timedelta(days=w)` is integer
    subtraction, which is exact for calendar-date arithmetic.
  * Metric values are `Option ℚ`: `none` stands for a null entry and also for
    a non-finite float, because every filter in the source tests
    `is_not_null() & is_finite()` as one conjunction; finite float values are
    a subset of `ℚ`.
  * Z-scores involve a square root, so they live in `ℝ` (`Real.sqrt` of the
    exact rational variance); everything before the square root stays in `ℚ`.
-/

namespace Scoring

/-- One row of the input table, restricted to the columns the engine reads
for a single metric: `ticker`, the date column (default `datekey`), the
segment column, and the metric value (`none` = null or non-finite). -/
structure Row where
  ticker : String
  datekey : ℤ
  segment : String
  value : Option ℚ
deriving DecidableEq, Repr

/-- Validity filter of `_calculate_rolling_z_scores` / `_calculate_rolling_percentiles`:
`pl.col(metric).is_not_null() & pl.col(metric).is_finite()`, plus
`pl.col(metric) > 0` when the metric is in `positive_only_metrics`. -/
def isValid (posOnly : Bool) (r : Row) : Bool :=
  match r.value with
  | none => false
  | some v => !posOnly || decide (0 < v)

/-- The `df_valid` dataframe: the input filtered to valid rows for the metric. -/
def validRows (posOnly : Bool) (df : List Row) : List Row :=
  df.filter (isValid posOnly)

/-- Membership test of the rolling window at evaluation point `(d, s)`:
`(pl.col(segment_col) == current_segment) & (pl.col(date_col) >= window_start)
& (pl.col(date_col) <= current_date)` with `window_start = current_date -
timedelta(days=window_days)`. -/
def inWindow (w d : ℤ) (s : String) (r : Row) : Bool :=
  r.segment == s && decide (d - w ≤ r.datekey) && decide (r.datekey ≤ d)

/-- The `window_data` sub-population for evaluation point `(d, s)`. -/
def windowData (w d : ℤ) (s : String) (dfValid : List Row) : List Row :=
  dfValid.filter (inWindow w d s)

/-- Metric values of a list of rows; nulls are skipped, matching the
null-skipping aggregations (`mean`, `std`, `median`, `count`) of polars. -/
def rowValues (rows : List Row) : List ℚ :=
  rows.filterMap (fun r => r.value)

/-- Arithmetic mean of a list of rationals (`pl.col(metric).mean()`). -/
def listMean (l : List ℚ) : ℚ :=
  l.sum / (l.length : ℚ)

/-- Sample variance with `ddof = 1`, the square of polars'
`pl.col(metric).std()`. The standard deviation itself is
`Real.sqrt (sampleVar l)`. -/
def sampleVar (l : List ℚ) : ℚ :=
  (l.map (fun v => (v - listMean l) ^ 2)).sum / ((l.length : ℚ) - 1)

/-- Statistics entry computed by `_calculate_rolling_z_scores` for one
evaluation point `(d, s)`: `some (mean, variance)` when the window holds
more than one row (`if len(window_data) > 1`), otherwise `none`, which
models the `{metric}_mean = None, {metric}_std = None` entry. -/
def zStats (w d : ℤ) (s : String) (dfValid : List Row) : Option (ℚ × ℚ) :=
  let wd := windowData w d s dfValid
  if 1 < wd.length then some (listMean (rowValues wd), sampleVar (rowValues wd))
  else none

/-- Per-row z-score column after the join of `df_stats` on
`(date_col, segment_col)`: the row receives the statistics of its own
evaluation point `(r.datekey, r.segment)`.  With `positive_only = true` the
source guards with `pl.when(is_not_null & is_finite & (> 0))`, otherwise it
computes `(value - mean) / std` directly, where polars propagates null from
a null value or null statistics.  A null standard deviation gives a null
z-score in both branches. -/
noncomputable def zscoreOfRow (posOnly : Bool) (w : ℤ) (dfValid : List Row)
    (r : Row) : Option ℝ :=
  match zStats w r.datekey r.segment dfValid, r.value with
  | some (m, v), some x =>
      if posOnly then
        if 0 < x then some (((x : ℝ) - (m : ℝ)) / Real.sqrt (v : ℝ)) else none
      else some (((x : ℝ) - (m : ℝ)) / Real.sqrt (v : ℝ))
  | some _, none => none
  | none, _ => none

/-! ### Claim C6: window boundary inclusivity and monotonicity -/

/-- Claim C6: for every evaluation point `(d, s)` (with a nonnegative window
size, as in the source where `window_days : int = 180`), a valid row of
segment `s` dated exactly `d - window_days` is a member of the sub-population
`windowData`, a row dated `d - window_days - 1` is not, and enlarging the
window from `w` to `w + 1` only ever adds rows to the sub-population of any
evaluation point, never removes one. -/
theorem window_boundary_and_monotone (w d : ℤ) (hw : 0 ≤ w) (s : String)
    (dfValid : List Row) (r : Row) (hr : r ∈ dfValid) (hs : r.segment = s) :
    (r.datekey = d - w → r ∈ windowData w d s dfValid) ∧
    (r.datekey = d - w - 1 → r ∉ windowData w d s dfValid) ∧
    (∀ (df' : List Row) (r' : Row),
      r' ∈ windowData w d s df' → r' ∈ windowData (w + 1) d s df') := by
  refine ⟨?_, ?_, ?_⟩
  · intro hd
    apply List.mem_filter.mpr
    refine ⟨hr, ?_⟩
    simp only [inWindow, hs, hd, Bool.and_eq_true, beq_self_eq_true,
      decide_eq_true_eq, true_and]
    omega
  · intro hd hmem
    have h := (List.mem_filter.mp hmem).2
    simp only [inWindow, hd, Bool.and_eq_true, decide_eq_true_eq] at h
    omega
  · intro df' r' hmem
    have h1 := (List.mem_filter.mp hmem).1
    have h2 := (List.mem_filter.mp hmem).2
    apply List.mem_filter.mpr
    refine ⟨h1, ?_⟩
    simp only [inWindow, Bool.and_eq_true, decide_eq_true_eq] at h2 ⊢
    obtain ⟨⟨hb, h1w⟩, h2d⟩ := h2
    exact ⟨⟨hb, by omega⟩, h2d⟩

/-- Witness for C6 at a concrete input: window 180 ending at day 200,
row dated day 20 (= 200 - 180) in segment `"Tech"`. -/
theorem window_boundary_and_monotone_witness :
    (0 : ℤ) ≤ 180 ∧ (⟨"A", 20, "Tech", some 5⟩ : Row) ∈ [(⟨"A", 20, "Tech", some 5⟩ : Row)] ∧
    (⟨"A", 20, "Tech", some 5⟩ : Row).segment = "Tech" ∧
    ((⟨"A", 20, "Tech", some 5⟩ : Row).datekey = 200 - 180 →
      (⟨"A", 20, "Tech", some 5⟩ : Row) ∈ windowData 180 200 "Tech" [⟨"A", 20, "Tech", some 5⟩]) :=
  ⟨by decide, by decide, rfl,
    (window_boundary_and_monotone 180 200 (by decide) "Tech"
      [⟨"A", 20, "Tech", some 5⟩] ⟨"A", 20, "Tech", some 5⟩ (by decide) rfl).1⟩

/-! ### Claim C7: degenerate populations give null statistics -/

/-- Claim C7: for every evaluation point `(d, s)` whose filtered
sub-population has size 0 or 1, `_calculate_rolling_z_scores` takes the
`else` branch and stores `{metric}_mean = None, {metric}_std = None`
(here `zStats … = none`), and consequently every row joined to that
evaluation point — any row dated `d` in segment `s`, for either value of
`positive_only` — gets a null `{metric}_zscore`; the computation is total,
so it returns the null statistics instead of zero or an error. -/
theorem degenerate_population_null (w d : ℤ) (s : String) (dfValid : List Row)
    (h : (windowData w d s dfValid).length ≤ 1) :
    zStats w d s dfValid = none ∧
    ∀ (posOnly : Bool) (r : Row), r.datekey = d → r.segment = s →
      zscoreOfRow posOnly w dfValid r = none := by
  have hz : zStats w d s dfValid = none := by
    simp only [zStats]
    rw [if_neg]
    omega
  refine ⟨hz, ?_⟩
  intro posOnly r hd hs
  simp only [zscoreOfRow, hd, hs, hz]

/-- Witness for C7: a single-row table; its only evaluation point has a
sub-population of size 1 and the row's z-score is null. -/
theorem degenerate_population_null_witness :
    (windowData 180 0 "Tech" [⟨"A", 0, "Tech", some 5⟩]).length ≤ 1 ∧
    zStats 180 0 "Tech" [⟨"A", 0, "Tech", some 5⟩] = none ∧
    zscoreOfRow true 180 [⟨"A", 0, "Tech", some 5⟩] ⟨"A", 0, "Tech", some 5⟩ = none := by
  have h : (windowData 180 0 "Tech" [⟨"A", 0, "Tech", some 5⟩]).length ≤ 1 := by decide
  have main := degenerate_population_null 180 0 "Tech" [⟨"A", 0, "Tech", some 5⟩] h
  exact ⟨h, main.1, main.2 true ⟨"A", 0, "Tech", some 5⟩ rfl rfl⟩

/-! ### Percentile variant (`_calculate_rolling_percentiles`) -/

/-- Mid-rank percentile of value `v` within the window values, as computed in
`_calculate_rolling_percentiles`:
`((values_below + (values_equal - 1) / 2 + 0.5) / population_count) * 100`,
where `values_below` counts window rows with metric `< v` and
`values_equal` counts those with metric `== v`. -/
def percentileOfValue (vals : List ℚ) (v : ℚ) : ℚ :=
  (((vals.countP (fun u => decide (u < v)) : ℚ) +
      ((vals.countP (fun u => decide (u = v)) : ℚ) - 1) / 2 + 1 / 2) /
    (vals.length : ℚ)) * 100

/-- One entry of `percentile_list`: keyed by the evaluation point's date and
segment together with a ticker, carrying `{metric}_percentile` and
`{metric}_population`. -/
structure PctEntry where
  datekey : ℤ
  segment : String
  ticker : String
  percentile : ℚ
  population : ℕ
deriving DecidableEq, Repr

/-- Entries appended to `percentile_list` for evaluation point `(d, s)`:
when the window is non-empty, one entry per window row (`tickers_in_window`),
each keyed by the evaluation point's `(current_date, current_segment)` and
the row's ticker, with the row value's mid-rank percentile and the window's
row count as population. -/
def percentileEntriesAt (w d : ℤ) (s : String) (dfValid : List Row) :
    List PctEntry :=
  let wd := windowData w d s dfValid
  if 0 < wd.length then
    wd.filterMap (fun r => r.value.map (fun v =>
      ⟨d, s, r.ticker, percentileOfValue (rowValues wd) v, wd.length⟩))
  else []

/-! ### Claim C1: no look-ahead for the z-score and percentile variants -/

/-- Helper: filtering with a predicate `p` that entails `c` factors through a
preliminary filter by `c`. -/
theorem filter_factor {α : Type} (p c : α → Bool) (l : List α)
    (h : ∀ a, p a = true → c a = true) :
    l.filter p = (l.filter c).filter p := by
  induction l with
  | nil => rfl
  | cons a t ih =>
    by_cases hc : c a = true
    · by_cases hp : p a = true
      · simp [List.filter_cons, hc, hp, ← ih]
      · simp [List.filter_cons, hc, hp, ← ih]
    · have hp : ¬ p a = true := fun hpa => hc (h a hpa)
      simp [List.filter_cons, hc, hp, ← ih]

/-- Helper: the window of evaluation point `(d, s)` over the valid rows of a
table only reads the table's rows dated `≤ d`. -/
theorem windowData_validRows_lookback (posOnly : Bool) (w d : ℤ) (s : String)
    (df : List Row) :
    windowData w d s (validRows posOnly df) =
      windowData w d s (validRows posOnly
        (df.filter (fun r => decide (r.datekey ≤ d)))) := by
  simp only [windowData, validRows, List.filter_filter]
  have hent : ∀ r : Row, (inWindow w d s r && isValid posOnly r) = true →
      decide (r.datekey ≤ d) = true := by
    intro r hr
    simp only [inWindow, Bool.and_eq_true, decide_eq_true_eq] at hr
    exact decide_eq_true hr.1.2
  rw [filter_factor (fun a => inWindow w d s a && isValid posOnly a)
    (fun r => decide (r.datekey ≤ d)) df hent, List.filter_filter]
  exact List.filter_congr (fun r _ => by rw [Bool.and_assoc])

/-- Claim C1: no look-ahead.  For every window size, every evaluation point
`(d, s)` and every positivity setting, if two input tables agree on the rows
dated `≤ d` (i.e. rows dated strictly after `d` were changed, added or
removed arbitrarily), then `_calculate_rolling_z_scores` computes the same
`(mean, std)` statistics and `_calculate_rolling_percentiles` computes the
same percentile entries for `(d, s)` on both tables. -/
theorem no_lookahead (posOnly : Bool) (w d : ℤ) (s : String)
    (df₁ df₂ : List Row)
    (h : df₁.filter (fun r => decide (r.datekey ≤ d)) =
         df₂.filter (fun r => decide (r.datekey ≤ d))) :
    zStats w d s (validRows posOnly df₁) = zStats w d s (validRows posOnly df₂) ∧
    percentileEntriesAt w d s (validRows posOnly df₁) =
      percentileEntriesAt w d s (validRows posOnly df₂) := by
  have hw : windowData w d s (validRows posOnly df₁) =
      windowData w d s (validRows posOnly df₂) := by
    rw [windowData_validRows_lookback, h, ← windowData_validRows_lookback]
  constructor
  · simp only [zStats, hw]
  · simp only [percentileEntriesAt, hw]

/-- Witness for C1: the second table perturbs the value of a row dated after
the evaluation date `10` and adds a brand-new future row; the statistics at
`(10, "Tech")` coincide. -/
theorem no_lookahead_witness :
    ([⟨"A", 0, "Tech", some 1⟩, ⟨"B", 5, "Tech", some 2⟩, ⟨"C", 20, "Tech", some 3⟩]
        : List Row).filter (fun r => decide (r.datekey ≤ 10)) =
      ([⟨"A", 0, "Tech", some 1⟩, ⟨"B", 5, "Tech", some 2⟩, ⟨"C", 20, "Tech", some 99⟩,
        ⟨"D", 30, "Tech", some 7⟩] : List Row).filter (fun r => decide (r.datekey ≤ 10)) ∧
    zStats 180 10 "Tech" (validRows true
        [⟨"A", 0, "Tech", some 1⟩, ⟨"B", 5, "Tech", some 2⟩, ⟨"C", 20, "Tech", some 3⟩]) =
      zStats 180 10 "Tech" (validRows true
        [⟨"A", 0, "Tech", some 1⟩, ⟨"B", 5, "Tech", some 2⟩, ⟨"C", 20, "Tech", some 99⟩,
         ⟨"D", 30, "Tech", some 7⟩]) := by
  have h : ([⟨"A", 0, "Tech", some 1⟩, ⟨"B", 5, "Tech", some 2⟩, ⟨"C", 20, "Tech", some 3⟩]
      : List Row).filter (fun r => decide (r.datekey ≤ 10)) =
      ([⟨"A", 0, "Tech", some 1⟩, ⟨"B", 5, "Tech", some 2⟩, ⟨"C", 20, "Tech", some 99⟩,
        ⟨"D", 30, "Tech", some 7⟩] : List Row).filter (fun r => decide (r.datekey ≤ 10)) := by
    decide
  exact ⟨h, (no_lookahead true 180 10 "Tech" _ _ h).1⟩

/-! ### Claim C4: the mid-rank percentile formula and its consequences -/

/-- Helper: the strict-below count and the tie count add up to the
at-most count. -/
theorem countP_lt_add_countP_eq (vals : List ℚ) (v : ℚ) :
    vals.countP (fun u => decide (u < v)) + vals.countP (fun u => decide (u = v)) =
      vals.countP (fun u => decide (u ≤ v)) := by
  induction vals with
  | nil => rfl
  | cons a t ih =>
    simp only [List.countP_cons]
    rcases lt_trichotomy a v with h | h | h
    · have h1 : decide (a < v) = true := decide_eq_true h
      have h2 : decide (a = v) = false := decide_eq_false (ne_of_lt h)
      have h3 : decide (a ≤ v) = true := decide_eq_true h.le
      simp [h1, h2, h3]
      omega
    · subst h
      have h1 : decide (a < a) = false := decide_eq_false (lt_irrefl a)
      have h2 : decide (a = a) = true := decide_eq_true rfl
      have h3 : decide (a ≤ a) = true := decide_eq_true le_rfl
      simp [h1, h2, h3]
      omega
    · have h1 : decide (a < v) = false := decide_eq_false (not_lt.mpr h.le)
      have h2 : decide (a = v) = false := decide_eq_false (ne_of_gt h)
      have h3 : decide (a ≤ v) = false := decide_eq_false (not_le.mpr h)
      simp [h1, h2, h3]
      omega

/-- Claim C4: for every non-empty window population and every value `v`
present in it, `_calculate_rolling_percentiles` computes
`((count_below + (count_tied - 1)/2 + 0.5) / population) * 100`; every such
percentile lies in `[0, 100]`; a single-member population yields exactly 50
(not null); a unique minimum yields `100 * 0.5 / n`; and a unique maximum
yields `100 * (n - 0.5) / n`. -/
theorem percentile_midrank_properties (vals : List ℚ) (v : ℚ) (hv : v ∈ vals) :
    percentileOfValue vals v =
      (((vals.countP (fun u => decide (u < v)) : ℚ) +
        ((vals.countP (fun u => decide (u = v)) : ℚ) - 1) / 2 + 1 / 2) /
        (vals.length : ℚ)) * 100 ∧
    0 ≤ percentileOfValue vals v ∧ percentileOfValue vals v ≤ 100 ∧
    (vals = [v] → percentileOfValue vals v = 50) ∧
    (vals.countP (fun u => decide (u = v)) = 1 → (∀ u ∈ vals, v ≤ u) →
      percentileOfValue vals v = 100 * (1 / 2) / (vals.length : ℚ)) ∧
    (vals.countP (fun u => decide (u = v)) = 1 → (∀ u ∈ vals, u ≤ v) →
      percentileOfValue vals v = 100 * ((vals.length : ℚ) - 1 / 2) / (vals.length : ℚ)) := by
  have hn : 0 < vals.length := List.length_pos.mpr (List.ne_nil_of_mem hv)
  have hnq : (0 : ℚ) < (vals.length : ℚ) := by exact_mod_cast hn
  have ht : 1 ≤ vals.countP (fun u => decide (u = v)) := by
    have hdec : (fun u => decide (u = v)) v = true := decide_eq_true rfl
    have : 0 < vals.countP (fun u => decide (u = v)) :=
      List.countP_pos_iff.mpr ⟨v, hv, hdec⟩
    omega
  have htq : (1 : ℚ) ≤ (vals.countP (fun u => decide (u = v)) : ℚ) := by exact_mod_cast ht
  have hbt : vals.countP (fun u => decide (u < v)) +
      vals.countP (fun u => decide (u = v)) ≤ vals.length := by
    rw [countP_lt_add_countP_eq]
    exact List.countP_le_length _
  have hbtq : (vals.countP (fun u => decide (u < v)) : ℚ) +
      (vals.countP (fun u => decide (u = v)) : ℚ) ≤ (vals.length : ℚ) := by
    exact_mod_cast hbt
  have hbq : (0 : ℚ) ≤ (vals.countP (fun u => decide (u < v)) : ℚ) := by positivity
  refine ⟨rfl, ?_, ?_, ?_, ?_, ?_⟩
  · have hnum : (0 : ℚ) ≤ (vals.countP (fun u => decide (u < v)) : ℚ) +
        ((vals.countP (fun u => decide (u = v)) : ℚ) - 1) / 2 + 1 / 2 := by linarith
    have := div_nonneg hnum hnq.le
    simp only [percentileOfValue]
    linarith
  · have hnum : (vals.countP (fun u => decide (u < v)) : ℚ) +
        ((vals.countP (fun u => decide (u = v)) : ℚ) - 1) / 2 + 1 / 2 ≤
        (vals.length : ℚ) := by linarith
    have := (div_le_one hnq).mpr hnum
    simp only [percentileOfValue]
    linarith
  · intro hsingle
    subst hsingle
    have h1 : decide (v < v) = false := decide_eq_false (lt_irrefl v)
    have h2 : decide (v = v) = true := decide_eq_true rfl
    simp [percentileOfValue, List.countP_cons, h1, h2]
    norm_num
  · intro ht1 hmin
    have hb0 : vals.countP (fun u => decide (u < v)) = 0 :=
      List.countP_eq_zero.mpr (fun u hu => by
        simp only [decide_eq_true_eq, not_lt]
        exact hmin u hu)
    simp only [percentileOfValue, hb0, ht1]
    push_cast
    ring
  · intro ht1 hmax
    have hball : vals.countP (fun u => decide (u ≤ v)) = vals.length :=
      List.countP_eq_length.mpr (fun u hu => decide_eq_true (hmax u hu))
    have hb : vals.countP (fun u => decide (u < v)) = vals.length - 1 := by
      have := countP_lt_add_countP_eq vals v
      omega
    have hbq' : (vals.countP (fun u => decide (u < v)) : ℚ) = (vals.length : ℚ) - 1 := by
      rw [hb]
      have : 1 ≤ vals.length := hn
      push_cast [this]
      ring
    simp only [percentileOfValue, hbq', ht1]
    push_cast
    field_simp
    ring

/-- Witness for C4 at `vals = [3, 5]`, `v = 3`: the unique minimum of a
two-member population has percentile 25. -/
theorem percentile_midrank_properties_witness :
    (3 : ℚ) ∈ ([3, 5] : List ℚ) ∧ percentileOfValue [3, 5] 3 =
      (((([3, 5] : List ℚ).countP (fun u => decide (u < 3)) : ℚ) +
        ((([3, 5] : List ℚ).countP (fun u => decide (u = 3)) : ℚ) - 1) / 2 + 1 / 2) /
        ((([3, 5] : List ℚ).length : ℚ))) * 100 := by
  have h : (3 : ℚ) ∈ ([3, 5] : List ℚ) := by norm_num
  exact ⟨h, (percentile_midrank_properties [3, 5] 3 h).1⟩

/-! ### Outlier classification (z-score long format) -/

/-- Favorable direction of a metric (`"lower"` or `"higher"` in `ALL_METRICS`). -/
inductive MetricDir where
  | lower
  | higher
deriving DecidableEq, Repr

/-- Direction label of an outlier (`"favorable"` / `"unfavorable"`; `none`
models Python `None`). -/
inductive OutDir where
  | favorable
  | unfavorable
deriving DecidableEq, Repr

/-- Per-cell z-score classification, the identical decision block of
`melt_and_classify_metrics` (`scoring/outliers.py`) and
`get_outlier_details` (`scoring/explain_scores.py`): starting from
`is_outlier = False, outlier_direction = None`, if the z-score is non-null
and `abs(zscore) >= sigma_threshold` then `is_outlier = True` and the
direction is set by strict comparisons `zscore < -sigma_threshold` /
`zscore > sigma_threshold`, swapped according to the metric direction.
Generic over the ordered field so that it applies to exact rationals and to
real-valued z-scores alike. -/
def classifyZ {α : Type} [LinearOrderedField α] (dir : MetricDir) (σ : α)
    (z : Option α) : Bool × Option OutDir :=
  match z with
  | none => (false, none)
  | some z =>
    if σ ≤ |z| then
      (true,
        match dir with
        | .lower =>
            if z < -σ then some .favorable
            else if σ < z then some .unfavorable
            else none
        | .higher =>
            if σ < z then some .favorable
            else if z < -σ then some .unfavorable
            else none)
    else (false, none)

/-! ### Claim C10: |z| equal to the threshold is an outlier with no direction -/

/-- Claim C10: in `melt_and_classify_metrics` (z-score version) and
`get_outlier_details`, a row whose z-score magnitude equals
`sigma_threshold` exactly satisfies `abs(zscore) >= sigma_threshold`, so
`is_outlier = True`, while both directional tests are strict inequalities
and fail, leaving `outlier_direction = None` — for either metric direction;
hence `is_outlier = true` does not imply a favorable or unfavorable label. -/
theorem boundary_zscore_outlier_without_direction (dir : MetricDir) (σ z : ℚ)
    (h : |z| = σ) :
    classifyZ dir σ (some z) = (true, none) := by
  have hσ : 0 ≤ σ := h ▸ abs_nonneg z
  have habs : σ ≤ |z| := le_of_eq h.symm
  have hcases : z = σ ∨ z = -σ := (abs_eq hσ).mp h
  have h1 : ¬ z < -σ := by
    rcases hcases with hz | hz
    · rw [hz]; intro hlt; linarith
    · rw [hz]; exact lt_irrefl _
  have h2 : ¬ σ < z := by
    rcases hcases with hz | hz
    · rw [hz]; exact lt_irrefl _
    · rw [hz]; intro hlt; linarith
  cases dir <;> simp [classifyZ, habs, h1, h2]

/-- Witness for C10 at `z = 2`, threshold `2`, lower-is-better metric. -/
theorem boundary_zscore_outlier_without_direction_witness :
    |(2 : ℚ)| = 2 ∧ classifyZ .lower (2 : ℚ) (some 2) = (true, none) :=
  ⟨by norm_num, boundary_zscore_outlier_without_direction .lower 2 2 (by norm_num)⟩

/-! ### Percentile-threshold classification: long-format reshaper vs. signal counts -/

/-- Per-cell classification of `melt_and_classify_metrics`
(`scoring/melt.py`): with parameter `percentile_threshold` (default 10), a
lower-is-better metric is a favorable outlier when
`percentile <= percentile_threshold` and otherwise an unfavorable outlier
when `percentile >= (100 - percentile_threshold)`; the branches are swapped
for higher-is-better metrics; a null percentile leaves
`(is_outlier, outlier_direction) = (False, None)`. -/
def meltClassifyPct (dir : MetricDir) (t : ℚ) (p : Option ℚ) :
    Bool × Option OutDir :=
  match p with
  | none => (false, none)
  | some x =>
    match dir with
    | .lower =>
        if x ≤ t then (true, some .favorable)
        else if 100 - t ≤ x then (true, some .unfavorable)
        else (false, none)
    | .higher =>
        if 100 - t ≤ x then (true, some .favorable)
        else if x ≤ t then (true, some .unfavorable)
        else (false, none)

/-- Per-metric favorable indicator of `calculate_signal_counts`
(`scoring/deepdive/count_based_selection.py`): with parameter
`percentile_threshold` (default 90) and `outlier_cutoff = 100 -
percentile_threshold`, a lower-is-better metric is favorable when
`percentile <= outlier_cutoff`, a higher-is-better one when
`percentile >= percentile_threshold`; null percentiles contribute 0. -/
def countFavorable (dir : MetricDir) (t : ℚ) (p : Option ℚ) : ℕ :=
  match p with
  | none => 0
  | some x =>
    match dir with
    | .lower => if x ≤ 100 - t then 1 else 0
    | .higher => if t ≤ x then 1 else 0

/-- Per-metric unfavorable indicator of `calculate_signal_counts`: a
lower-is-better metric is unfavorable when
`percentile >= percentile_threshold`, a higher-is-better one when
`percentile <= outlier_cutoff`; null percentiles contribute 0. -/
def countUnfavorable (dir : MetricDir) (t : ℚ) (p : Option ℚ) : ℕ :=
  match p with
  | none => 0
  | some x =>
    match dir with
    | .lower => if t ≤ x then 1 else 0
    | .higher => if x ≤ 100 - t then 1 else 0

/-- Per-metric availability indicator of `calculate_signal_counts`
(`metrics_available`): 1 when the percentile is non-null, else 0. -/
def countAvailable (p : Option ℚ) : ℕ :=
  match p with
  | none => 0
  | some _ => 1

/-! ### Claim C3: reshaper labels vs. classifier count conditions -/

/-- Counterexample to claim C3: with the same percentile threshold value 10
passed to both functions, a lower-is-better cell at percentile 50 is counted
as favorable by `calculate_signal_counts` (because its favorable condition is
`percentile <= 100 - threshold = 90`) but is labelled not an outlier at all
by `melt_and_classify_metrics` (whose favorable condition is
`percentile <= threshold = 10`): the two threshold conventions are
complementary, not identical. -/
theorem melt_vs_counts_same_threshold_disagree :
    countFavorable .lower 10 (some 50) = 1 ∧
    meltClassifyPct .lower 10 (some 50) = (false, none) := by
  constructor
  · simp only [countFavorable]
    norm_num
  · simp only [meltClassifyPct]
    norm_num

/-- Claim C3 as amended: the per-cell labels of `melt_and_classify_metrics`
with threshold `t < 50` agree with the favorable/unfavorable conditions of
`calculate_signal_counts` with the complementary threshold `100 - t` (so
both use low cutoff `t` and high cutoff `100 - t`): a cell is labelled
favorable iff it is counted favorable, unfavorable iff counted unfavorable,
and an outlier iff it contributes exactly one signal; null percentiles agree
trivially. -/
theorem melt_matches_counts_complementary_threshold (dir : MetricDir) (t : ℚ)
    (ht : t < 50) (p : Option ℚ) :
    ((meltClassifyPct dir t p).2 = some .favorable ↔
      countFavorable dir (100 - t) p = 1) ∧
    ((meltClassifyPct dir t p).2 = some .unfavorable ↔
      countUnfavorable dir (100 - t) p = 1) ∧
    ((meltClassifyPct dir t p).1 = true ↔
      countFavorable dir (100 - t) p + countUnfavorable dir (100 - t) p = 1) := by
  have h100 : (100 : ℚ) - (100 - t) = t := by ring
  match p with
  | none =>
    cases dir <;> simp [meltClassifyPct, countFavorable, countUnfavorable]
  | some x =>
    cases dir
    · by_cases hx : x ≤ t
      · have hy : ¬ (100 - t ≤ x) := by intro hc; linarith
        simp [meltClassifyPct, countFavorable, countUnfavorable, h100, hx, hy]
      · by_cases hy : 100 - t ≤ x
        · simp [meltClassifyPct, countFavorable, countUnfavorable, h100, hx, hy]
        · simp [meltClassifyPct, countFavorable, countUnfavorable, h100, hx, hy]
    · by_cases hx : x ≤ t
      · have hy : ¬ (100 - t ≤ x) := by intro hc; linarith
        simp [meltClassifyPct, countFavorable, countUnfavorable, h100, hx, hy]
      · by_cases hy : 100 - t ≤ x
        · simp [meltClassifyPct, countFavorable, countUnfavorable, h100, hx, hy]
        · simp [meltClassifyPct, countFavorable, countUnfavorable, h100, hx, hy]

/-- Witness for the amended C3 at threshold 10 / 90 and percentile 5: the
reshaper labels the cell favorable and the classifier counts it favorable. -/
theorem melt_matches_counts_complementary_threshold_witness :
    (10 : ℚ) < 50 ∧
    ((meltClassifyPct .lower 10 (some 5)).2 = some .favorable ↔
      countFavorable .lower (100 - 10) (some 5) = 1) :=
  ⟨by norm_num,
    (melt_matches_counts_complementary_threshold .lower 10 (by norm_num) (some 5)).1⟩

/-! ### The percentile join of `_calculate_rolling_percentiles` -/

/-- The evaluation points `unique_dates_segments`: the distinct
`(date_col, segment_col)` pairs of the unfiltered input. -/
def evalPoints (df : List Row) : List (ℤ × String) :=
  (df.map (fun r => (r.datekey, r.segment))).dedup

/-- The complete `percentile_list` accumulated over all evaluation points. -/
def allPctEntries (w : ℤ) (df dfValid : List Row) : List PctEntry :=
  (evalPoints df).flatMap (fun q => percentileEntriesAt w q.1 q.2 dfValid)

/-- The left join of the input table with `percentile_list` on
`(date_col, segment_col, "ticker")`: every input row is paired with each
matching entry (several matches duplicate the row, as in a polars left
join), and with `none` (null `{metric}_percentile` / `{metric}_population`)
when no entry matches. -/
def pctJoin (df : List Row) (entries : List PctEntry) :
    List (Row × Option (ℚ × ℕ)) :=
  df.flatMap (fun r =>
    let ms := entries.filter (fun e =>
      e.datekey == r.datekey && e.segment == r.segment && e.ticker == r.ticker)
    if ms.isEmpty then [(r, none)]
    else ms.map (fun e => (r, some (e.percentile, e.population))))

/-- Output of `_calculate_rolling_percentiles` for one metric: the input
table left-joined with the percentile entries computed from its valid rows. -/
def percentileTable (posOnly : Bool) (w : ℤ) (df : List Row) :
    List (Row × Option (ℚ × ℕ)) :=
  pctJoin df (allPctEntries w df (validRows posOnly df))

/-! ### Claim C8: null propagation fails for the percentile column -/

/-- Demonstration for claim C8 (code bug).  Claim C8 states that a row whose
metric value is null gets a null `{metric}_percentile` and contributes 0 to
`metrics_available`.  The code violates this: `percentile_list` entries are
keyed by the evaluation point's date, segment and the ticker of any window
member, so for the input `[("T", day 0, "s", 5), ("T", day 10, "s", null)]`
the valid day-0 row generates an entry keyed `(10, "s", "T")` from the
evaluation point `(10, "s")`, and the left join attaches percentile 50.0 and
population 1 — not null — to the null-valued day-10 row, which therefore
also counts towards `metrics_available` via `calculate_signal_counts`. -/
theorem null_value_gets_leaked_percentile :
    percentileTable true 180 [⟨"T", 0, "s", some 5⟩, ⟨"T", 10, "s", none⟩] =
      [(⟨"T", 0, "s", some 5⟩, some (50, 1)), (⟨"T", 10, "s", none⟩, some (50, 1))] ∧
    countAvailable (some 50) = 1 := by
  constructor
  · norm_num [percentileTable, pctJoin, allPctEntries, evalPoints,
      percentileEntriesAt, windowData, inWindow, validRows, isValid, rowValues,
      percentileOfValue, List.dedup, List.flatMap, List.filter, List.filterMap]
    decide
  · rfl

/-! ### Claim C9: the engines only add columns -/

/-- Demonstration for claim C9 (code bug).  Claim C9 states that the
percentile engine's output contains exactly the input's rows, none dropped
or duplicated.  The code violates this: for the input
`[("T", day 0, "s", 5), ("T", day 10, "s", 7)]` the evaluation point
`(10, "s")` has both rows of ticker `"T"` in its window and therefore emits
two `percentile_list` entries with the identical key `(10, "s", "T")`; the
left join then duplicates the day-10 row, producing a 3-row output from a
2-row input. -/
theorem percentile_join_duplicates_rows :
    (percentileTable true 180 [⟨"T", 0, "s", some 5⟩, ⟨"T", 10, "s", some 7⟩]).length = 3 := by
  decide

/-! ### MAD variant (`_calculate_mad_scores`, `scoring/mad_score.py`) -/

/-- Median with polars semantics: sort and take the middle element, or the
mean of the two middle elements for an even count; null for an empty input. -/
def listMedian (l : List ℚ) : Option ℚ :=
  if l.length = 0 then none
  else
    let s := l.insertionSort (· ≤ ·)
    if l.length % 2 = 1 then some (s.getD (l.length / 2) 0)
    else some ((s.getD (l.length / 2 - 1) 0 + s.getD (l.length / 2) 0) / 2)

/-- Non-null metric values of a whole segment: the input to the
null-skipping aggregations `median().over(segment_col)` and
`count().over(segment_col)` of `_calculate_mad_scores`.  No date filter
appears anywhere in the source of this variant. -/
def segmentValues (df : List Row) (s : String) : List ℚ :=
  (df.filter (fun r => r.segment == s)).filterMap (fun r => r.value)

/-- The `{metric}_median` column: `pl.when(filter_cond).then(median().over(segment))`,
where `filter_cond` is the same validity test as in the other variants
(non-null, finite, and positive for `positive_only_metrics`). -/
def madMedianCol (posOnly : Bool) (df : List Row) (r : Row) : Option ℚ :=
  if isValid posOnly r then listMedian (segmentValues df r.segment) else none

/-- The per-row absolute deviations feeding the `{metric}_mad` aggregation:
`(metric - {metric}_median).abs()` is non-null exactly on the rows of the
segment passing `filter_cond`, and the segment-wide median skips the nulls. -/
def madDiffs (posOnly : Bool) (df : List Row) (s : String) : List ℚ :=
  (df.filter (fun r => r.segment == s && isValid posOnly r)).filterMap
    (fun r =>
      match r.value, listMedian (segmentValues df s) with
      | some v, some m => some |v - m|
      | _, _ => none)

/-- The `{metric}_mad` column: `pl.when(filter_cond).then(
(metric - median).abs().median().over(segment))`. -/
def madCol (posOnly : Bool) (df : List Row) (r : Row) : Option ℚ :=
  if isValid posOnly r then listMedian (madDiffs posOnly df r.segment) else none

/-- The `{metric}_mad_score` column:
`pl.when(filter_cond & (mad > 0)).then(0.6745 * (metric - median) / mad)`,
null when the condition fails or any referenced column is null. -/
def madScoreCol (posOnly : Bool) (df : List Row) (r : Row) : Option ℚ :=
  match madCol posOnly df r, madMedianCol posOnly df r, r.value with
  | some mad, some m, some v =>
      if isValid posOnly r && decide (0 < mad) then
        some ((0.6745 : ℚ) * (v - m) / mad)
      else none
  | _, _, _ => none

/-- The `{metric}_population` column:
`pl.when(filter_cond).then(count().over(segment))`, the number of non-null
metric values in the whole segment. -/
def madPopCol (posOnly : Bool) (df : List Row) (r : Row) : Option ℕ :=
  if isValid posOnly r then some (segmentValues df r.segment).length else none

/-! ### Claim C2: the MAD variant is not windowed -/

/-- Counterexample to claim C2.  Claim C2 states that for window
`window_days = 180` the `{metric}_median` reported for the evaluation point
of a row dated day 1000 in segment `"s"` is the median of the segment rows
dated within `[820, 1000]`, and that rows outside that date window do not
affect it.  In `_calculate_mad_scores` there is no date filter at all: with
rows `("A", day 0, "s", 10)` and `("B", day 1000, "s", 30)`, the day-1000
row's median is 20 — the segment-wide median including the row dated 1000
days earlier — not 30, and deleting the out-of-window day-0 row changes the
reported median. -/
theorem mad_ignores_window_counterexample :
    madMedianCol true [⟨"A", 0, "s", some 10⟩, ⟨"B", 1000, "s", some 30⟩]
        ⟨"B", 1000, "s", some 30⟩ = some 20 ∧
    madMedianCol true [⟨"B", 1000, "s", some 30⟩] ⟨"B", 1000, "s", some 30⟩ = some 30 ∧
    madMedianCol true [⟨"A", 0, "s", some 10⟩, ⟨"B", 1000, "s", some 30⟩]
        ⟨"B", 1000, "s", some 30⟩ ≠
      madMedianCol true [⟨"B", 1000, "s", some 30⟩] ⟨"B", 1000, "s", some 30⟩ := by
  have h1 : madMedianCol true [⟨"A", 0, "s", some 10⟩, ⟨"B", 1000, "s", some 30⟩]
      ⟨"B", 1000, "s", some 30⟩ = some 20 := by
    norm_num [madMedianCol, isValid, segmentValues, listMedian, List.filter,
      List.filterMap, List.insertionSort, List.orderedInsert]
  have h2 : madMedianCol true [⟨"B", 1000, "s", some 30⟩]
      ⟨"B", 1000, "s", some 30⟩ = some 30 := by
    norm_num [madMedianCol, isValid, segmentValues, listMedian, List.filter,
      List.filterMap, List.insertionSort, List.orderedInsert]
  refine ⟨h1, h2, ?_⟩
  rw [h1, h2]
  intro hc
  have : (20 : ℚ) = 30 := Option.some.inj hc
  norm_num at this

/-- Projection of a row to the only fields the MAD variant reads: segment
and metric value. -/
def rowKey (r : Row) : String × Option ℚ :=
  (r.segment, r.value)

/-- Helper: a filter-then-extract pipeline that reads rows only through a
projection factors through the projected list. -/
theorem proj_pipeline {γ : Type} (f : Row → String × Option ℚ)
    (q : String × Option ℚ → Bool) (g : String × Option ℚ → Option γ)
    (df : List Row) :
    (df.filter (fun r => q (f r))).filterMap (fun r => g (f r)) =
      ((df.map f).filter q).filterMap g := by
  rw [List.filter_map, List.filterMap_map]
  rfl

/-- Helper: segment values only depend on the (segment, value) projection of
the table. -/
theorem segmentValues_congr (df₁ df₂ : List Row)
    (h : df₁.map rowKey = df₂.map rowKey) (s : String) :
    segmentValues df₁ s = segmentValues df₂ s := by
  have e₁ : segmentValues df₁ s =
      ((df₁.map rowKey).filter (fun x => x.1 == s)).filterMap (fun x => x.2) :=
    proj_pipeline rowKey (fun x => x.1 == s) (fun x => x.2) df₁
  have e₂ : segmentValues df₂ s =
      ((df₂.map rowKey).filter (fun x => x.1 == s)).filterMap (fun x => x.2) :=
    proj_pipeline rowKey (fun x => x.1 == s) (fun x => x.2) df₂
  rw [e₁, e₂, h]

/-- Helper: the validity filter only reads the row's value. -/
theorem isValid_congr (posOnly : Bool) (r₁ r₂ : Row) (h : r₁.value = r₂.value) :
    isValid posOnly r₁ = isValid posOnly r₂ := by
  unfold isValid
  rw [h]

/-- Helper: the deviations feeding the MAD aggregation only depend on the
(segment, value) projection of the table. -/
theorem madDiffs_congr (posOnly : Bool) (df₁ df₂ : List Row)
    (h : df₁.map rowKey = df₂.map rowKey) (s : String) :
    madDiffs posOnly df₁ s = madDiffs posOnly df₂ s := by
  have hm : listMedian (segmentValues df₁ s) = listMedian (segmentValues df₂ s) := by
    rw [segmentValues_congr df₁ df₂ h s]
  have e₁ : madDiffs posOnly df₁ s =
      ((df₁.map rowKey).filter
        (fun x => x.1 == s && (match x.2 with
          | none => false
          | some v => !posOnly || decide (0 < v)))).filterMap
        (fun x =>
          match x.2, listMedian (segmentValues df₁ s) with
          | some v, some m => some |v - m|
          | _, _ => none) :=
    proj_pipeline rowKey
      (fun x => x.1 == s && (match x.2 with
        | none => false
        | some v => !posOnly || decide (0 < v)))
      (fun x =>
        match x.2, listMedian (segmentValues df₁ s) with
        | some v, some m => some |v - m|
        | _, _ => none) df₁
  have e₂ : madDiffs posOnly df₂ s =
      ((df₂.map rowKey).filter
        (fun x => x.1 == s && (match x.2 with
          | none => false
          | some v => !posOnly || decide (0 < v)))).filterMap
        (fun x =>
          match x.2, listMedian (segmentValues df₂ s) with
          | some v, some m => some |v - m|
          | _, _ => none) :=
    proj_pipeline rowKey
      (fun x => x.1 == s && (match x.2 with
        | none => false
        | some v => !posOnly || decide (0 < v)))
      (fun x =>
        match x.2, listMedian (segmentValues df₂ s) with
        | some v, some m => some |v - m|
        | _, _ => none) df₂
  rw [e₁, e₂, h, hm]

/-- Claim C2 as amended: the MAD variant is segment-scoped but not windowed.
All four derived columns (`{metric}_median`, `{metric}_mad`,
`{metric}_mad_score`, `{metric}_population`) are invariant under arbitrary
changes to the dates of every row of the input: they depend only on each
row's segment and metric value, so rows outside `[d - window_days, d]`
participate fully, and `ScoreOption.window_days` and `date_col` are ignored. -/
theorem mad_scores_date_invariant (posOnly : Bool) (df₁ df₂ : List Row)
    (r₁ r₂ : Row) (hdf : df₁.map rowKey = df₂.map rowKey)
    (hs : r₁.segment = r₂.segment) (hv : r₁.value = r₂.value) :
    madMedianCol posOnly df₁ r₁ = madMedianCol posOnly df₂ r₂ ∧
    madCol posOnly df₁ r₁ = madCol posOnly df₂ r₂ ∧
    madScoreCol posOnly df₁ r₁ = madScoreCol posOnly df₂ r₂ ∧
    madPopCol posOnly df₁ r₁ = madPopCol posOnly df₂ r₂ := by
  have hval := isValid_congr posOnly r₁ r₂ hv
  have hmed : madMedianCol posOnly df₁ r₁ = madMedianCol posOnly df₂ r₂ := by
    unfold madMedianCol
    rw [hval, hs, segmentValues_congr df₁ df₂ hdf r₂.segment]
  have hmad : madCol posOnly df₁ r₁ = madCol posOnly df₂ r₂ := by
    unfold madCol
    rw [hval, hs, madDiffs_congr posOnly df₁ df₂ hdf r₂.segment]
  refine ⟨hmed, hmad, ?_, ?_⟩
  · unfold madScoreCol
    rw [hmad, hmed, hv, hval]
  · unfold madPopCol
    rw [hval, hs, segmentValues_congr df₁ df₂ hdf r₂.segment]

/-- Witness for the amended C2: moving both rows 900 days and the target row
3 days leaves every MAD column unchanged. -/
theorem mad_scores_date_invariant_witness :
    ([⟨"A", 0, "s", some 10⟩, ⟨"B", 1000, "s", some 30⟩] : List Row).map rowKey =
      ([⟨"A", 900, "s", some 10⟩, ⟨"B", 100, "s", some 30⟩] : List Row).map rowKey ∧
    madMedianCol true [⟨"A", 0, "s", some 10⟩, ⟨"B", 1000, "s", some 30⟩]
        ⟨"B", 1000, "s", some 30⟩ =
      madMedianCol true [⟨"A", 900, "s", some 10⟩, ⟨"B", 100, "s", some 30⟩]
        ⟨"B", 103, "s", some 30⟩ := by
  have h : ([⟨"A", 0, "s", some 10⟩, ⟨"B", 1000, "s", some 30⟩] : List Row).map rowKey =
      ([⟨"A", 900, "s", some 10⟩, ⟨"B", 100, "s", some 30⟩] : List Row).map rowKey := by
    decide
  exact ⟨h, (mad_scores_date_invariant true _ _ _ _ h rfl rfl).1⟩

/-! ### Claim C5: the three-entity end-to-end scenario -/

/-- The scenario input: three entities in segment `"Tech"`, metric values
10, 15 and 100, all dated the same day (day 0), window 180 days. -/
def scenarioDf : List Row :=
  [⟨"A", 0, "Tech", some 10⟩, ⟨"B", 0, "Tech", some 15⟩, ⟨"C", 0, "Tech", some 100⟩]

/-- Helper: the engine's statistics for the scenario's single evaluation
point: mean `125/3 ≈ 41.67` and sample variance `23025/9 ≈ 2558.33`
(polars `std` uses `ddof = 1`). -/
theorem scenario_stats :
    zStats 180 0 "Tech" (validRows true scenarioDf) = some (125 / 3, 23025 / 9) := by
  have hwd : windowData 180 0 "Tech" (validRows true scenarioDf) = scenarioDf := by decide
  have hvals : rowValues scenarioDf = [10, 15, 100] := by decide
  have hmean : listMean [10, 15, 100] = 125 / 3 := by
    norm_num [listMean, List.sum_cons, List.sum_nil]
  have hvar : sampleVar [10, 15, 100] = 23025 / 9 := by
    norm_num [sampleVar, listMean, List.sum_cons, List.sum_nil, List.map_cons,
      List.map_nil]
  simp [zStats, hwd, hvals, hmean, hvar]
  decide

/-- Helper: cast of the scenario variance to the reals. -/
theorem scenario_var_cast : (((23025 : ℚ) / 9 : ℚ) : ℝ) = (23025 : ℝ) / 9 := by
  push_cast
  ring

/-- Helper: the z-score the engine assigns to the third scenario row. -/
theorem scenario_z3 :
    zscoreOfRow true 180 (validRows true scenarioDf) ⟨"C", 0, "Tech", some 100⟩ =
      some (((100 : ℝ) - 125 / 3) / Real.sqrt ((23025 : ℝ) / 9)) := by
  simp [zscoreOfRow, scenario_stats, scenario_var_cast]

/-- Helper: the z-score the engine assigns to the first scenario row. -/
theorem scenario_z1 :
    zscoreOfRow true 180 (validRows true scenarioDf) ⟨"A", 0, "Tech", some 10⟩ =
      some (((10 : ℝ) - 125 / 3) / Real.sqrt ((23025 : ℝ) / 9)) := by
  simp [zscoreOfRow, scenario_stats, scenario_var_cast]

/-- Helper: the z-score the engine assigns to the second scenario row. -/
theorem scenario_z2 :
    zscoreOfRow true 180 (validRows true scenarioDf) ⟨"B", 0, "Tech", some 15⟩ =
      some (((15 : ℝ) - 125 / 3) / Real.sqrt ((23025 : ℝ) / 9)) := by
  simp [zscoreOfRow, scenario_stats, scenario_var_cast]

/-- Helper: the scenario's standard deviation is strictly positive. -/
theorem scenario_sqrt_pos : (0 : ℝ) < Real.sqrt ((23025 : ℝ) / 9) :=
  Real.sqrt_pos.mpr (by norm_num)

/-- Counterexample to claim C5 as stated.  The claim asserts the z-score
engine produces `std ≈ 49.7` and a z-score of `≈ 1.174` for the entity with
value 100.  In fact the engine's sample standard deviation is
`√(23025/9) ≈ 50.578 > 50.5` (more than 0.8 above 49.7) and the third
z-score is below 1.16 (so not within 0.014 of 1.174): the spec's
intermediate numbers are wrong, though the classification they support is
right. -/
theorem scenario_numbers_refuted :
    zStats 180 0 "Tech" (validRows true scenarioDf) = some (125 / 3, 23025 / 9) ∧
    (50.5 : ℝ) < Real.sqrt ((23025 : ℝ) / 9) ∧
    ((100 : ℝ) - 125 / 3) / Real.sqrt ((23025 : ℝ) / 9) < 1.16 := by
  have hs1 : (50.5 : ℝ) < Real.sqrt ((23025 : ℝ) / 9) :=
    (Real.lt_sqrt (by norm_num)).mpr (by norm_num)
  refine ⟨scenario_stats, hs1, ?_⟩
  rw [div_lt_iff₀ scenario_sqrt_pos]
  nlinarith [hs1]

/-- Claim C5 as amended: for the scenario input the z-score engine produces
mean `125/3` (≈ 41.67) and std `√(23025/9)`, which lies in
`(50.57, 50.58)` (≈ 50.58, not 49.7); the z-scores are
`(10 - 125/3)/std ≈ -0.626`, `(15 - 125/3)/std ≈ -0.527` and
`(100 - 125/3)/std ≈ 1.153` (not -0.637, -0.537, 1.174); with
`sigma_threshold = 1.0` and direction `"lower"` the entity with value 100 is
labelled an unfavorable outlier and the other two are labelled no outliers
with no direction; across the three rows the labels count 1 unfavorable and
0 favorable, and all three rows carry a non-null z-score, so each
contributes 1 to `metrics_available` for this metric. -/
theorem scenario_classification :
    zStats 180 0 "Tech" (validRows true scenarioDf) = some (125 / 3, 23025 / 9) ∧
    (50.57 : ℝ) < Real.sqrt ((23025 : ℝ) / 9) ∧
    Real.sqrt ((23025 : ℝ) / 9) < 50.58 ∧
    classifyZ .lower (1 : ℝ)
      (zscoreOfRow true 180 (validRows true scenarioDf) ⟨"A", 0, "Tech", some 10⟩) =
      (false, none) ∧
    classifyZ .lower (1 : ℝ)
      (zscoreOfRow true 180 (validRows true scenarioDf) ⟨"B", 0, "Tech", some 15⟩) =
      (false, none) ∧
    classifyZ .lower (1 : ℝ)
      (zscoreOfRow true 180 (validRows true scenarioDf) ⟨"C", 0, "Tech", some 100⟩) =
      (true, some .unfavorable) ∧
    (([⟨"A", 0, "Tech", some 10⟩, ⟨"B", 0, "Tech", some 15⟩,
        ⟨"C", 0, "Tech", some 100⟩] : List Row).map (fun r =>
        classifyZ .lower (1 : ℝ)
          (zscoreOfRow true 180 (validRows true scenarioDf) r))).countP
      (fun c => decide (c.2 = some OutDir.unfavorable)) = 1 ∧
    (([⟨"A", 0, "Tech", some 10⟩, ⟨"B", 0, "Tech", some 15⟩,
        ⟨"C", 0, "Tech", some 100⟩] : List Row).map (fun r =>
        classifyZ .lower (1 : ℝ)
          (zscoreOfRow true 180 (validRows true scenarioDf) r))).countP
      (fun c => decide (c.2 = some OutDir.favorable)) = 0 ∧
    (zscoreOfRow true 180 (validRows true scenarioDf) ⟨"A", 0, "Tech", some 10⟩).isSome = true ∧
    (zscoreOfRow true 180 (validRows true scenarioDf) ⟨"B", 0, "Tech", some 15⟩).isSome = true ∧
    (zscoreOfRow true 180 (validRows true scenarioDf) ⟨"C", 0, "Tech", some 100⟩).isSome = true := by
  have hspos := scenario_sqrt_pos
  have hs1 : (50.57 : ℝ) < Real.sqrt ((23025 : ℝ) / 9) :=
    (Real.lt_sqrt (by norm_num)).mpr (by norm_num)
  have hs2 : Real.sqrt ((23025 : ℝ) / 9) < 50.58 :=
    (Real.sqrt_lt' (by norm_num)).mpr (by norm_num)
  have habs1 : |((10 : ℝ) - 125 / 3) / Real.sqrt ((23025 : ℝ) / 9)| < 1 := by
    rw [abs_div, abs_of_pos hspos, div_lt_one hspos]
    have he : |(10 : ℝ) - 125 / 3| = 95 / 3 := by
      rw [abs_of_neg (by norm_num)]
      norm_num
    rw [he]
    exact (Real.lt_sqrt (by norm_num)).mpr (by norm_num)
  have habs2 : |((15 : ℝ) - 125 / 3) / Real.sqrt ((23025 : ℝ) / 9)| < 1 := by
    rw [abs_div, abs_of_pos hspos, div_lt_one hspos]
    have he : |(15 : ℝ) - 125 / 3| = 80 / 3 := by
      rw [abs_of_neg (by norm_num)]
      norm_num
    rw [he]
    exact (Real.lt_sqrt (by norm_num)).mpr (by norm_num)
  have hz3gt : (1 : ℝ) < ((100 : ℝ) - 125 / 3) / Real.sqrt ((23025 : ℝ) / 9) := by
    rw [one_lt_div hspos]
    exact (Real.sqrt_lt' (by norm_num)).mpr (by norm_num)
  have hl1 : classifyZ .lower (1 : ℝ)
      (zscoreOfRow true 180 (validRows true scenarioDf) ⟨"A", 0, "Tech", some 10⟩) =
      (false, none) := by
    rw [scenario_z1]
    simp only [classifyZ]
    rw [if_neg (not_le.mpr habs1)]
  have hl2 : classifyZ .lower (1 : ℝ)
      (zscoreOfRow true 180 (validRows true scenarioDf) ⟨"B", 0, "Tech", some 15⟩) =
      (false, none) := by
    rw [scenario_z2]
    simp only [classifyZ]
    rw [if_neg (not_le.mpr habs2)]
  have hl3 : classifyZ .lower (1 : ℝ)
      (zscoreOfRow true 180 (validRows true scenarioDf) ⟨"C", 0, "Tech", some 100⟩) =
      (true, some .unfavorable) := by
    rw [scenario_z3]
    have habs : (1 : ℝ) ≤ |((100 : ℝ) - 125 / 3) / Real.sqrt ((23025 : ℝ) / 9)| := by
      rw [abs_of_pos (by linarith)]
      linarith
    have hnlt : ¬ ((100 : ℝ) - 125 / 3) / Real.sqrt ((23025 : ℝ) / 9) < -1 := by
      linarith
    simp only [classifyZ]
    rw [if_pos habs, if_neg hnlt, if_pos hz3gt]
  refine ⟨scenario_stats, hs1, hs2, hl1, hl2, hl3, ?_, ?_, ?_, ?_, ?_⟩
  · simp only [List.map_cons, List.map_nil, hl1, hl2, hl3]
    decide
  · simp only [List.map_cons, List.map_nil, hl1, hl2, hl3]
    decide
  · rw [scenario_z1]
    rfl
  · rw [scenario_z2]
    rfl
  · rw [scenario_z3]
    rfl

end Scoring
